import Mathlib

/-!
Shallow embedding of `src/salt/states/file.py` (file-state reconcilers:
`symlink`, `managed`, `directory`, and their helpers `_makedirs`, `_is_bin`,
`_mako`, `_jinja`).

The filesystem, the injected provider functions (`__salt__[...]`), and the
process options (`__opts__`) are modelled explicitly:

* the filesystem is a total map from path strings to entries;
* every mutating primitive (`shutil.copy`, `os.remove`, `shutil.rmtree`,
  `os.makedirs`, `os.symlink`, `file.chown`, `file.set_mode`) both updates the
  state and appends an `Event` to a trace, so "no mutation occurred" is
  expressible as trace preservation;
* external providers (`cp.hash_file`, `cp.cache_file`, hashing, template
  engines, `difflib.unified_diff`) are oracles carried in an `Env` record;
  `file.chown` / `file.set_mode` may silently fail to take effect, which the
  `Env` flags `chownUserOk` / `chownGroupOk` / `setModeOk` select, modelling a
  provider that rejects an application;
* a Python exception escaping the function is `Except.error` with the
  exception's name; `symlink`, which can fall off the end and return `None`,
  yields an `Option Ret`.

Symlink chains of length greater than one are not modelled: `os.path.isfile`
and friends follow at most one link level, which covers every path the
reconcilers exercise.
-/

namespace SaltFile

/-- One filesystem entry: absent, a regular file with byte content, a
directory, a symbolic link with its stored target, or some other entity
(fifo, socket, device). -/
inductive Entry where
  | missing
  | file (content : List Nat)
  | dir
  | link (target : String)
  | other
deriving DecidableEq, Repr

/-- The filesystem: a total map from paths to entries. -/
abbrev Fs := String → Entry

/-- A mutation call on the filesystem or the permission provider, recorded in
chronological order. -/
inductive Event where
  | copy (src dst : String)
  | remove (p : String)
  | rmtree (p : String)
  | makedirs (p : String)
  | symlinkNew (target name : String)
  | chown (p : String) (user group : Option String)
  | setMode (p : String) (mode : String)
deriving DecidableEq, Repr

/-- Mutable world state threaded through a reconciliation call: the
filesystem, the owner/group/mode tables read and written through the
permission provider, and the trace of mutation calls made so far. -/
structure St where
  fs : Fs
  puser : String → String
  pgroup : String → String
  pmode : String → String
  trace : List Event

/-- Result of `cp.hash_file`: the hash algorithm name and the digest. -/
structure HashInfo where
  hash_type : String
  hsum : String
deriving DecidableEq, Repr

/-- Result of a template engine call: `_mako` / `_jinja` return a result
flag and either the rendered-file path or the error text. -/
structure RenderRes where
  result : Bool
  data : String
deriving DecidableEq, Repr

/-- The injected environment: the dry-run flag read from `__opts__`, and the
external provider oracles. `chownUserOk` / `chownGroupOk` / `setModeOk` say whether a
`file.chown` / `file.set_mode` call actually takes effect, modelling provider
rejection. -/
structure Env where
  test : Bool
  hashFile : String → String → Option HashInfo
  cacheFile : String → String → Option String
  hashFn : String → List Nat → String
  renderMako : String → RenderRes
  renderJinja : String → RenderRes
  unifiedDiff : List (List Nat) → List (List Nat) → String
  chownUserOk : Bool
  chownGroupOk : Bool
  setModeOk : Bool

/-- `os.path.dirname` for POSIX paths: everything up to the last slash, with
trailing slashes stripped unless the head is all slashes. -/
def dirname (p : String) : String :=
  let cs := p.toList
  let i := cs.length - (cs.reverse.takeWhile (fun c => c ≠ '/')).length
  let head := cs.take i
  if head.isEmpty then ""
  else if head.all (fun c => c = '/') then String.mk head
  else String.mk ((head.reverse.dropWhile (fun c => c = '/')).reverse)

/-- `os.path.isfile`, following at most one symlink level. -/
def isfile (fs : Fs) (p : String) : Bool :=
  match fs p with
  | .file _ => true
  | .link t =>
    match fs t with
    | .file _ => true
    | _ => false
  | _ => false

/-- `os.path.isdir`, following at most one symlink level. -/
def isdir (fs : Fs) (p : String) : Bool :=
  match fs p with
  | .dir => true
  | .link t =>
    match fs t with
    | .dir => true
    | _ => false
  | _ => false

/-- `os.path.islink`: true for any symlink, dangling or not. -/
def islink (fs : Fs) (p : String) : Bool :=
  match fs p with
  | .link _ => true
  | _ => false

/-- `os.path.exists`: false for an absent path and for a dangling symlink. -/
def pexists (fs : Fs) (p : String) : Bool :=
  match fs p with
  | .missing => false
  | .link t =>
    match fs t with
    | .missing => false
    | .link _ => false
    | _ => true
  | _ => true

/-- `os.readlink`; the call sites are guarded by `islink`, so the default
for a non-link never surfaces. -/
def readlink (fs : Fs) (p : String) : String :=
  match fs p with
  | .link t => t
  | _ => ""

/-- Bytes readable at a path (a full binary read), following at most one
symlink level; `none` when the read would raise `IOError`. -/
def contentOf (fs : Fs) (p : String) : Option (List Nat) :=
  match fs p with
  | .file c => some c
  | .link t =>
    match fs t with
    | .file c => some c
    | _ => none
  | _ => none

/-- Python truthiness of an optional string argument (`if user:`): `none` and
the empty string are falsy. -/
def tval : Option String → Option String
  | some s => if s = "" then none else some s
  | none => none

/-- `_is_bin` on a byte string: a NUL byte within the first 2048 bytes. -/
def isBinContent (c : List Nat) : Bool :=
  ((c.take 2048).count 0) ≠ 0

/-- `readlines` on bytes: split after each newline byte, keeping the
terminator, as the Python binary readlines does. -/
def splitLinesAux : List Nat → List Nat → List (List Nat)
  | [], acc => if acc.isEmpty then [] else [acc.reverse]
  | b :: rest, acc =>
    if b = 10 then (b :: acc).reverse :: splitLinesAux rest []
    else splitLinesAux rest (b :: acc)

/-- The lines of a byte string, newline terminators kept. -/
def splitLines (c : List Nat) : List (List Nat) :=
  splitLinesAux c []

/-- Python dict assignment `m[k] = v`: replace in place when the key is
present, else append. -/
def dinsert (m : List (String × String)) (k v : String) : List (String × String) :=
  if m.any (fun q => q.1 = k) then m.map (fun q => if q.1 = k then (k, v) else q)
  else m ++ [(k, v)]

/-- The mutable result dictionary every reconciler assembles. -/
structure Ret where
  name : String
  changes : List (String × String)
  result : Bool
  comment : String
deriving DecidableEq, Repr

/-- Point update of the filesystem map. -/
def fsUpdate (fs : Fs) (p : String) (e : Entry) : Fs :=
  fun q => if q = p then e else fs q

/-- Effect of `os.makedirs p`: the path and every ancestor prefix become
directories. (The `OSError` Python raises when a component already exists is
not modelled; no call site reaches that case in the proved properties.) -/
def makedirsFs (fs : Fs) (p : String) : Fs :=
  fun q => if q = p ∨ ((q ++ "/").isPrefixOf p) then Entry.dir else fs q

/-- `_makedirs(path)`: create `dirname path` unless it is already a
directory. -/
def makedirsStep (p : String) (st : St) : St :=
  if isdir st.fs (dirname p) then st
  else { st with
    fs := makedirsFs st.fs (dirname p),
    trace := st.trace ++ [Event.makedirs (dirname p)] }

/-- Bare `os.makedirs(p)` (used by `directory` on the path itself). -/
def rawMakedirs (p : String) (st : St) : St :=
  { st with fs := makedirsFs st.fs p, trace := st.trace ++ [Event.makedirs p] }

/-- `os.remove p`. -/
def removeStep (p : String) (st : St) : St :=
  { st with fs := fsUpdate st.fs p Entry.missing,
            trace := st.trace ++ [Event.remove p] }

/-- `shutil.rmtree p`: the path and everything below it vanish. -/
def rmtreeStep (p : String) (st : St) : St :=
  { st with
    fs := fun q => if q = p ∨ ((p ++ "/").isPrefixOf q) then Entry.missing else st.fs q,
    trace := st.trace ++ [Event.rmtree p] }

/-- `os.symlink target name`. -/
def symlinkStep (target name : String) (st : St) : St :=
  { st with fs := fsUpdate st.fs name (Entry.link target),
            trace := st.trace ++ [Event.symlinkNew target name] }

/-- `shutil.copy src dst`: content and mode bits of `src` land at `dst`;
`IOError` when the source is unreadable or the destination unreachable. -/
def copyStep (src dst : String) (st : St) : Except String St :=
  match contentOf st.fs src with
  | some c =>
    if isfile st.fs dst || isdir st.fs (dirname dst) then
      .ok { st with
        fs := fsUpdate st.fs dst (Entry.file c),
        pmode := fun q => if q = dst then st.pmode src else st.pmode q,
        trace := st.trace ++ [Event.copy src dst] }
    else .error "IOError"
  | none => .error "IOError"

/-- The provider call `file.chown` on `(p, user, group)`: the event is always
recorded; each attribute is updated only when the provider accepts it. -/
def chownStep (env : Env) (p : String) (user group : Option String) (st : St) : St :=
  let st1 := { st with trace := st.trace ++ [Event.chown p user group] }
  let st2 :=
    match user with
    | some u =>
      if env.chownUserOk then
        { st1 with puser := fun q => if q = p then u else st1.puser q }
      else st1
    | none => st1
  match group with
  | some g =>
    if env.chownGroupOk then
      { st2 with pgroup := fun q => if q = p then g else st2.pgroup q }
    else st2
  | none => st2

/-- The provider call `file.set_mode` on `(p, m)`: event recorded; effect
only when the provider accepts it. -/
def setModeStep (env : Env) (p m : String) (st : St) : St :=
  let st1 := { st with trace := st.trace ++ [Event.setMode p m] }
  if env.setModeOk then
    { st1 with pmode := fun q => if q = p then m else st1.pmode q }
  else st1

/-- `symlink(name, target, force, makedirs)` from the source, lines 82-126.
`none` is the implicit Python `None` return when the function falls off the
end. -/
def symlink (env : Env) (name target : String) (force mk : Bool)
    (st : St) : Option Ret × St :=
  let ret : Ret := { name := name, changes := [], result := true, comment := "" }
  if ¬ isdir st.fs (dirname name) then
    let st := if mk then makedirsStep name st else st
    (some { ret with
              result := false,
              comment := "Directory " ++ dirname name ++ " for symlink is not present" },
      st)
  else
    let scan : Option Ret × St :=
      if islink st.fs name then
        if ¬ (readlink st.fs name = target) then (none, removeStep name st)
        else (some { ret with comment := "The symlink " ++ name ++ " is present" }, st)
      else if isfile st.fs name then
        if force then (none, removeStep name st)
        else (some { ret with
                       result := false,
                       comment := "File exists where the symlink " ++ name ++ " should be" },
               st)
      else if isdir st.fs name then
        if force then (none, rmtreeStep name st)
        else (some { ret with
                       result := false,
                       comment := "Direcotry exists where the symlink " ++ name ++ " should be" },
               st)
      else (none, st)
    match scan with
    | (some r, st) => (some r, st)
    | (none, st) =>
      if ¬ pexists st.fs name then
        let st := symlinkStep target name st
        (some { ret with
                  comment := "Created new symlink " ++ name,
                  changes := dinsert ret.changes "new" name },
          st)
      else (none, st)

/-- Control flow of a contiguous source block: an early `return ret`, a crash
(the named Python exception escapes), or fall-through into the next block. -/
inductive Step where
  | done (r : Ret)
  | cont (r : Ret)
  | crash (e : String)
deriving DecidableEq, Repr

/-- Template dispatch of the destination-exists branch of `managed` (lines
194-203). The template kind, prefixed with an underscore, is looked up in the
module globals and called when present; then the result is subscripted. The
module globals with a leading underscore are `_makedirs`, `_is_bin`, `_mako`,
`_jinja`, so a kind outside those four leaves the local `data` unbound and its
subscript raises `NameError`; `makedirs` and `is_bin` name non-renderer
functions whose return value cannot be subscripted, raising `TypeError`
(after `_makedirs(sfn)` has run for its side effect). On success the rendered
path replaces the cached source path (`Sum.inr`). -/
def templateExisting (env : Env) (t sfn : String) (ret : Ret) (st : St) :
    (Step ⊕ String) × St :=
  if t = "mako" then
    if (env.renderMako sfn).result then (.inr (env.renderMako sfn).data, st)
    else (.inl (.done { ret with result := false, comment := (env.renderMako sfn).data }), st)
  else if t = "jinja" then
    if (env.renderJinja sfn).result then (.inr (env.renderJinja sfn).data, st)
    else (.inl (.done { ret with result := false, comment := (env.renderJinja sfn).data }), st)
  else if t = "makedirs" then (.inl (.crash "TypeError"), makedirsStep sfn st)
  else if t = "is_bin" then (.inl (.crash "TypeError"), st)
  else (.inl (.crash "NameError"), st)

/-- Template dispatch of the destination-absent branch of `managed` (lines
271-280). Here `data` is pre-initialised to an empty dict, so an unregistered
kind reaches `data.get`, which yields a falsy `None`: result set to `False`
and return with no comment. The kinds `makedirs` / `is_bin` still crash:
their return values are not dicts, so `.get` raises `AttributeError`. -/
def templateNew (env : Env) (t sfn : String) (ret : Ret) (st : St) :
    (Step ⊕ String) × St :=
  if t = "mako" then
    if (env.renderMako sfn).result then (.inr (env.renderMako sfn).data, st)
    else (.inl (.done { ret with result := false }), st)
  else if t = "jinja" then
    if (env.renderJinja sfn).result then (.inr (env.renderJinja sfn).data, st)
    else (.inl (.done { ret with result := false }), st)
  else if t = "makedirs" then (.inl (.crash "AttributeError"), makedirsStep sfn st)
  else if t = "is_bin" then (.inl (.crash "AttributeError"), st)
  else (.inl (.done { ret with result := false }), st)

/-- Lines 204-213 of `managed`: binary sniffing of the source artifact and
the destination, the diff change entry, and the copy gated on dry run. -/
def diffAndCopy (env : Env) (name sfn : String) (ret : Ret) (st : St) : Step × St :=
  match contentOf st.fs sfn, contentOf st.fs name with
  | some sc, some nc2 =>
    let ret :=
      if isBinContent sc || isBinContent nc2 then
        { ret with changes := dinsert ret.changes "diff" "Replace binary file" }
      else
        let d := env.unifiedDiff (splitLines sc) (splitLines nc2)
        { ret with changes := dinsert ret.changes "diff" d }
    if env.test then (.cont ret, st)
    else
      match copyStep sfn name st with
      | .ok st => (.cont ret, st)
      | .error e => (.crash e, st)
  | _, _ => (.crash "IOError", st)

/-- Lines 281-287 of `managed`: the New-file diff change, and the gated
`_makedirs` plus copy. -/
def newFileCopy (env : Env) (name sfn : String) (mk : Bool) (ret : Ret) (st : St) :
    Step × St :=
  let ret := { ret with changes := dinsert ret.changes "diff" "New file" }
  if env.test then (.cont ret, st)
  else
    let st := if mk then makedirsStep name st else st
    match copyStep sfn name st with
    | .ok st => (.cont ret, st)
    | .error e => (.crash e, st)

/-- Lines 178-213 of `managed` (the destination-exists branch up to the
content replacement): digest comparison, source caching, template dispatch,
binary sniffing / unified diff, and the gated copy. -/
def contentExisting (env : Env) (name source : String) (template : Option String)
    (senv : String) (ret : Ret) (st : St) : Step × St :=
  match env.hashFile source senv with
  | none =>
    (.done { ret with result := false, comment := "Source file " ++ source ++ " not found" }, st)
  | some source_sum =>
    match contentOf st.fs name with
    | none => (.crash "IOError", st)
    | some nc =>
      if source_sum.hsum = env.hashFn source_sum.hash_type nc then (.cont ret, st)
      else
        match env.cacheFile source senv with
        | none =>
          (.done { ret with result := false, comment := "Source file " ++ source ++ " not found" }, st)
        | some sfn0 =>
          match tval template with
          | none => diffAndCopy env name sfn0 ret st
          | some t =>
            match templateExisting env t sfn0 ret st with
            | (.inl s, st) => (s, st)
            | (.inr sfn, st) => diffAndCopy env name sfn ret st

/-- Lines 265-287 of `managed` (the destination-absent branch up to the
copy): source caching, template dispatch, the New-file change, and the gated
`_makedirs` plus copy. -/
def contentNew (env : Env) (name source : String) (template : Option String)
    (mk : Bool) (senv : String) (ret : Ret) (st : St) : Step × St :=
  match env.cacheFile source senv with
  | none =>
    (.done { ret with result := false, comment := "Source file " ++ source ++ " not found" }, st)
  | some sfn0 =>
    match tval template with
    | none => newFileCopy env name sfn0 mk ret st
    | some t =>
      match templateNew env t sfn0 ret st with
      | (.inl s, st) => (s, st)
      | (.inr sfn, st) => newFileCopy env name sfn mk ret st

/-- The permission block shared verbatim by the exists branch of `managed`
(lines 214-253) and by `directory` (lines 374-413): detect pending
owner/group, one joint `file.chown` when either is pending and not dry-run,
gated `file.set_mode` with an ungated re-read, then the ungated per-attribute
verification re-reads. A user-verification failure assigns the comment,
overwriting earlier fragments; mode and group failures append. -/
def permPhaseA (env : Env) (name : String) (user group mode : Option String)
    (ret : Ret) (st : St) : Ret × St :=
  let luser := st.puser name
  let lgroup := st.pgroup name
  let lmode := st.pmode name
  let cuser : Option String :=
    match tval user with
    | some u => if u ≠ luser then some u else none
    | none => none
  let cgroup : Option String :=
    match tval group with
    | some g => if g ≠ lgroup then some g else none
    | none => none
  let st :=
    if cuser.isSome || cgroup.isSome then
      if env.test then st else chownStep env name user group st
    else st
  let (ret, st) :=
    match tval mode with
    | some m =>
      if m ≠ lmode then
        let st := if env.test then st else setModeStep env name m st
        if m ≠ st.pmode name then
          ({ ret with result := false, comment := ret.comment ++ "Mode not changed " }, st)
        else
          ({ ret with changes := dinsert ret.changes "mode" m }, st)
      else (ret, st)
    | none => (ret, st)
  let ret :=
    match tval user with
    | some u =>
      if u ≠ st.puser name then
        { ret with result := false, comment := "Failed to change user to " ++ u ++ " " }
      else if cuser.isSome then { ret with changes := dinsert ret.changes "user" u }
      else ret
    | none => ret
  let ret :=
    match tval group with
    | some g =>
      if g ≠ st.pgroup name then
        { ret with result := false,
                   comment := ret.comment ++ "Failed to change group to " ++ g ++ " " }
      else if cgroup.isSome then { ret with changes := dinsert ret.changes "group" g }
      else ret
    | none => ret
  (ret, st)

/-- The permission block of the destination-absent branch of `managed`
(lines 288-328). Identical to `permPhaseA` except for the user/group
verification-failure comments, which here both append their fragment (User not
changed / Group not changed) instead of the exists-branch behaviour. -/
def permPhaseB (env : Env) (name : String) (user group mode : Option String)
    (ret : Ret) (st : St) : Ret × St :=
  let luser := st.puser name
  let lgroup := st.pgroup name
  let lmode := st.pmode name
  let cuser : Option String :=
    match tval user with
    | some u => if u ≠ luser then some u else none
    | none => none
  let cgroup : Option String :=
    match tval group with
    | some g => if g ≠ lgroup then some g else none
    | none => none
  let st :=
    if cuser.isSome || cgroup.isSome then
      if env.test then st else chownStep env name user group st
    else st
  let (ret, st) :=
    match tval mode with
    | some m =>
      if m ≠ lmode then
        let st := if env.test then st else setModeStep env name m st
        if m ≠ st.pmode name then
          ({ ret with result := false, comment := ret.comment ++ "Mode not changed " }, st)
        else
          ({ ret with changes := dinsert ret.changes "mode" m }, st)
      else (ret, st)
    | none => (ret, st)
  let ret :=
    match tval user with
    | some u =>
      if u ≠ st.puser name then
        { ret with result := false, comment := ret.comment ++ "User not changed " }
      else if cuser.isSome then { ret with changes := dinsert ret.changes "user" u }
      else ret
    | none => ret
  let ret :=
    match tval group with
    | some g =>
      if g ≠ st.pgroup name then
        { ret with result := false, comment := ret.comment ++ "Group not changed " }
      else if cgroup.isSome then { ret with changes := dinsert ret.changes "group" g }
      else ret
    | none => ret
  (ret, st)

/-- Final comment assembly shared by both `managed` branches (lines 255-261 /
330-336) and by `directory` (lines 415-421), parametrised by the leading word
(`"File"` or `"Directory"`). -/
def finishRet (kindWord : String) (test : Bool) (name : String) (ret : Ret) : Ret :=
  let ret :=
    if ret.comment = "" then { ret with comment := kindWord ++ " " ++ name ++ " updated" }
    else ret
  if test then { ret with comment := kindWord ++ " " ++ name ++ " not updated" }
  else if ret.changes.isEmpty && ret.result then
    { ret with comment := kindWord ++ " " ++ name ++ " is in the correct state" }
  else ret

/-- `managed(name, source, user, group, mode, template, makedirs, __env__)`
from the source, lines 159-337. An `Except.error` is a Python exception
escaping the call. -/
def managed (env : Env) (name source : String)
    (user group mode template : Option String) (mk : Bool) (senv : String)
    (st : St) : Except String Ret × St :=
  let ret : Ret := { name := name, changes := [], result := true, comment := "" }
  if isfile st.fs name then
    match contentExisting env name source template senv ret st with
    | (.done r, st) => (.ok r, st)
    | (.crash e, st) => (.error e, st)
    | (.cont r, st) =>
      let (r, st) := permPhaseA env name user group mode r st
      (.ok (finishRet "File" env.test name r), st)
  else
    match contentNew env name source template mk senv ret st with
    | (.done r, st) => (.ok r, st)
    | (.crash e, st) => (.error e, st)
    | (.cont r, st) =>
      let (r, st) := permPhaseB env name user group mode r st
      (.ok (finishRet "File" env.test name r), st)

/-- `directory(name, user, group, mode, makedirs)` from the source, lines
339-422. -/
def directory (env : Env) (name : String)
    (user group mode : Option String) (mk : Bool) (st : St) : Ret × St :=
  let ret : Ret := { name := name, changes := [], result := true, comment := "" }
  if isfile st.fs name then
    ({ ret with
         result := false,
         comment := "Specifed location " ++ name ++ " exists and is a file" },
     st)
  else
    let early : Option Ret × St :=
      if ¬ isdir st.fs name then
        if ¬ isdir st.fs (dirname name) then
          if mk then (none, makedirsStep name st)
          else
            (some { ret with
                      result := false,
                      comment := "No directory to create " ++ name ++ " in" },
             st)
        else (none, st)
      else (none, st)
    match early with
    | (some r, st) => (r, st)
    | (none, st) =>
      let st := if ¬ isdir st.fs name then rawMakedirs name (makedirsStep name st) else st
      if ¬ isdir st.fs name then
        ({ ret with
             result := false,
             comment := "Failed to create directory " ++ name },
         st)
      else
        let (r, st) := permPhaseA env name user group mode ret st
        (finishRet "Directory" env.test name r, st)

/-- A concrete filesystem used by the closed evaluations below: a directory
`/d` and `/etc`, an existing managed file `/f`, and a cached source artifact
`/cache/src`. -/
def fsA : Fs := fun p =>
  if p = "/d" then Entry.dir
  else if p = "/etc" then Entry.dir
  else if p = "/f" then Entry.file [49]
  else if p = "/cache/src" then Entry.file [104]
  else Entry.missing

/-- Concrete starting state over `fsA`: owner bob, group staff, mode 600
everywhere, empty trace. -/
def stA : St :=
  { fs := fsA, puser := fun _ => "bob", pgroup := fun _ => "staff",
    pmode := fun _ => "600", trace := [] }

/-- Concrete oracle environment: the source hashes to digest abc under md5,
caches to `/cache/src`, the local digest oracle returns zzz (so digests
differ), renders fail, and the permission provider accepts everything. -/
def baseEnv : Env :=
  { test := false,
    hashFile := fun _ _ => some { hash_type := "md5", hsum := "abc" },
    cacheFile := fun _ _ => some "/cache/src",
    hashFn := fun _ _ => "zzz",
    renderMako := fun _ => { result := false, data := "mako failure" },
    renderJinja := fun _ => { result := false, data := "jinja failure" },
    unifiedDiff := fun _ _ => "UDIFF",
    chownUserOk := true, chownGroupOk := true, setModeOk := true }

/-- `baseEnv` with the dry-run flag set. -/
def envDry : Env := { baseEnv with test := true }

/-- Dry run with matching digests: the local digest oracle agrees with
`cp.hash_file`, so the content block is skipped. -/
def envDryEq : Env := { envDry with hashFn := fun _ _ => "abc" }

/-- Matching digests, a mode provider that rejects `set_mode`, and an owner
provider that rejects the user half of `chown`. -/
def envRejects : Env :=
  { baseEnv with hashFn := fun _ _ => "abc", setModeOk := false, chownUserOk := false }

/-- Matching digests with an accepting provider. -/
def envEq : Env := { baseEnv with hashFn := fun _ _ => "abc" }

/-- Matching digests, a group provider that rejects the group half of
`chown`, and a mode provider that rejects `set_mode`. -/
def envRejectsGroup : Env :=
  { baseEnv with hashFn := fun _ _ => "abc", setModeOk := false, chownGroupOk := false }

/-- A filesystem whose path `/d/fifo` is occupied by an entity that is
neither symlink nor regular file nor directory. -/
def fsOther : Fs := fun p =>
  if p = "/d" then Entry.dir
  else if p = "/d/fifo" then Entry.other
  else Entry.missing

/-- State over `fsOther`. -/
def stOther : St := { stA with fs := fsOther }

theorem chownStep_trace (env : Env) (p : String) (user group : Option String) (st : St) :
    (chownStep env p user group st).trace = st.trace ++ [Event.chown p user group] := by
  cases user <;> cases group <;>
    simp only [chownStep] <;> split_ifs <;> rfl

theorem setModeStep_trace (env : Env) (p m : String) (st : St) :
    (setModeStep env p m st).trace = st.trace ++ [Event.setMode p m] := by
  unfold setModeStep
  split <;> rfl

/-- C1 counterexample: with the dry-run flag set, a `symlink` call on a
divergent state (parent directory present, link absent) still mutates the
filesystem — the link-creation call is made and the link appears — because
`symlink` never consults the flag. -/
theorem C1_symlink_mutates_in_dry_run :
    envDry.test = true ∧
    stA.fs "/d/l" = Entry.missing ∧ stA.trace = [] ∧
    (symlink envDry "/d/l" "/tgt" false false stA).2.trace
      = [Event.symlinkNew "/tgt" "/d/l"] ∧
    (symlink envDry "/d/l" "/tgt" false false stA).2.fs "/d/l" = Entry.link "/tgt" := by
  exact ⟨rfl, rfl, rfl, rfl, rfl⟩

/-- C2 counterexample: in a `managed` dry run on an existing file whose
content digest already matches, a pending mode change (600 present, 644
desired) makes the verification re-read run against the unmodified state, so
the result is marked false even though no mutation call was made and the
pending change is not recorded. -/
theorem C2_dry_run_marks_false :
    envDryEq.test = true ∧
    stA.pmode "/f" = "600" ∧
    (managed envDryEq "/f" "src" none none (some "644") none false "base" stA).1
      = .ok { name := "/f", changes := [], result := false,
              comment := "File /f not updated" } ∧
    (managed envDryEq "/f" "src" none none (some "644") none false "base" stA).2.trace = [] := by
  exact ⟨rfl, rfl, rfl, rfl⟩

/-- C3 counterexample: for the spec example (managed file `/etc/app.conf`,
absent destination, source found, dry-run off, mode reconciliation succeeds)
the change set records the new file under the key `diff`, not `new`, and the
comment is `File /etc/app.conf updated`, not `/etc/app.conf updated`. -/
theorem C3_changeset_key_and_comment :
    (managed baseEnv "/etc/app.conf" "pkg://app.conf" none none (some "644") none false
        "base" stA).1
      = .ok { name := "/etc/app.conf", changes := [("diff", "New file"), ("mode", "644")],
              result := true, comment := "File /etc/app.conf updated" } ∧
    [("diff", "New file"), ("mode", "644")].lookup "new" = none ∧
    "File /etc/app.conf updated" ≠ "/etc/app.conf updated" := by
  refine ⟨rfl, rfl, ?_⟩
  decide

/-- C4: a `managed` call on an existing file with divergent digests and a
template kind that has no registered renderer does not return a result
dictionary at all — the local `data` is never bound and the call raises
`NameError`, contradicting the no-crash claim. -/
theorem C4_unregistered_template_crashes :
    (managed baseEnv "/f" "src" none none none (some "cheetah") false "base" stA).1
      = .error "NameError" := by
  rfl

/-- C5 counterexample: on an existing file with matching digests, when the
mode application fails and then the user application also fails in the same
`managed` call, the user-failure comment overwrites the mode-failure fragment
instead of concatenating: the mode fragment is absent from the final comment
even though both applications were attempted (trace) and both failed. -/
theorem C5_user_failure_overwrites_mode_fragment :
    (managed envRejects "/f" "src" (some "alice") none (some "644") none false "base" stA).1
      = .ok { name := "/f", changes := [], result := false,
              comment := "Failed to change user to alice " } ∧
    (managed envRejects "/f" "src" (some "alice") none (some "644") none false "base" stA).2.trace
      = [Event.chown "/f" (some "alice") none, Event.setMode "/f" "644"] ∧
    ¬ List.IsInfix ("Mode not changed ".toList) ("Failed to change user to alice ".toList) := by
  refine ⟨rfl, rfl, ?_⟩
  decide

/-- C6: whenever the parent directory of the link name is absent at entry and
the makedirs flag is set, `symlink` creates the parent directory, yet returns
result false with the missing-parent-directory comment and makes no
link-creation call (the only recorded mutation is the makedirs call). -/
theorem C6_symlink_makedirs_but_fails (env : Env) (name target : String)
    (force : Bool) (st : St)
    (h : isdir st.fs (dirname name) = false) :
    (symlink env name target force true st).1
      = some { name := name, changes := [], result := false,
               comment := "Directory " ++ dirname name ++ " for symlink is not present" } ∧
    isdir (symlink env name target force true st).2.fs (dirname name) = true ∧
    (symlink env name target force true st).2.trace
      = st.trace ++ [Event.makedirs (dirname name)] := by
  unfold symlink makedirsStep
  simp only [h]
  simp [isdir, makedirsFs]

/-- Witness for C6 at a concrete input: parent `/nop` is absent. -/
theorem C6_symlink_makedirs_but_fails_witness :
    isdir stA.fs (dirname "/nop/l") = false ∧
    ((symlink baseEnv "/nop/l" "/t" false true stA).1
        = some { name := "/nop/l", changes := [], result := false,
                 comment := "Directory " ++ dirname "/nop/l" ++ " for symlink is not present" } ∧
     isdir (symlink baseEnv "/nop/l" "/t" false true stA).2.fs (dirname "/nop/l") = true ∧
     (symlink baseEnv "/nop/l" "/t" false true stA).2.trace
        = stA.trace ++ [Event.makedirs (dirname "/nop/l")]) :=
  ⟨rfl, C6_symlink_makedirs_but_fails baseEnv "/nop/l" "/t" false stA rfl⟩

/-- C7: with the parent directory present and nothing at the name, `symlink`
creates the name as a link to the target and records the change under `new`;
with a link to the desired target already present, the call is a no-op with
result true, empty change set and the symlink-present comment; hence a second
invocation right after a successful creation changes nothing. -/
theorem C7_symlink_create_and_idempotent (env : Env) (name target : String)
    (force mk : Bool) (st : St) :
    (st.fs (dirname name) = Entry.dir → st.fs name = Entry.missing →
      (symlink env name target force mk st).1
        = some { name := name, changes := [("new", name)], result := true,
                 comment := "Created new symlink " ++ name } ∧
      (symlink env name target force mk st).2.fs name = Entry.link target ∧
      (symlink env name target force mk st).2.fs (dirname name) = Entry.dir ∧
      (symlink env name target force mk st).2.trace
        = st.trace ++ [Event.symlinkNew target name]) ∧
    (st.fs (dirname name) = Entry.dir → st.fs name = Entry.link target →
      symlink env name target force mk st
        = (some { name := name, changes := [], result := true,
                  comment := "The symlink " ++ name ++ " is present" }, st)) ∧
    (st.fs (dirname name) = Entry.dir → st.fs name = Entry.missing →
      symlink env name target force mk ((symlink env name target force mk st).2)
        = (some { name := name, changes := [], result := true,
                  comment := "The symlink " ++ name ++ " is present" },
           (symlink env name target force mk st).2)) := by
  have hb : ∀ st1 : St, st1.fs (dirname name) = Entry.dir →
      st1.fs name = Entry.link target →
      symlink env name target force mk st1
        = (some { name := name, changes := [], result := true,
                  comment := "The symlink " ++ name ++ " is present" }, st1) := by
    intro st1 hp hl
    unfold symlink
    simp [isdir, islink, readlink, hp, hl]
  have ha : st.fs (dirname name) = Entry.dir → st.fs name = Entry.missing →
      (symlink env name target force mk st).1
        = some { name := name, changes := [("new", name)], result := true,
                 comment := "Created new symlink " ++ name } ∧
      (symlink env name target force mk st).2.fs name = Entry.link target ∧
      (symlink env name target force mk st).2.fs (dirname name) = Entry.dir ∧
      (symlink env name target force mk st).2.trace
        = st.trace ++ [Event.symlinkNew target name] := by
    intro hp hm
    unfold symlink symlinkStep
    rcases eq_or_ne (dirname name) name with hdn | hdn
    · rw [hdn] at hp; rw [hp] at hm; simp at hm
    · simp [isdir, islink, isfile, pexists, dinsert, fsUpdate, hp, hm, hdn]
  refine ⟨ha, hb st, ?_⟩
  intro hp hm
  obtain ⟨h1, h2, h3, h4⟩ := ha hp hm
  exact hb _ h3 h2

/-- Witness for C7 at a concrete input: create `/d/l` then re-run. -/
theorem C7_symlink_create_and_idempotent_witness :
    stA.fs (dirname "/d/l") = Entry.dir ∧ stA.fs "/d/l" = Entry.missing ∧
    symlink baseEnv "/d/l" "/tgt" false false
        ((symlink baseEnv "/d/l" "/tgt" false false stA).2)
      = (some { name := "/d/l", changes := [], result := true,
                comment := "The symlink " ++ "/d/l" ++ " is present" },
         (symlink baseEnv "/d/l" "/tgt" false false stA).2) :=
  ⟨rfl, rfl,
    (C7_symlink_create_and_idempotent baseEnv "/d/l" "/tgt" false false stA).2.2 rfl rfl⟩

/-- C10: with the parent directory present and the path occupied by an entity
that is neither symlink, regular file nor directory, `symlink` returns the
Python `None` (no result dictionary) and leaves the state untouched. -/
theorem C10_symlink_returns_none_on_other (env : Env) (name target : String)
    (force mk : Bool) (st : St)
    (hp : st.fs (dirname name) = Entry.dir)
    (ho : st.fs name = Entry.other) :
    symlink env name target force mk st = (none, st) := by
  unfold symlink
  simp [isdir, islink, isfile, pexists, hp, ho]

/-- Witness for C10 at a concrete input: a fifo occupies `/d/fifo`. -/
theorem C10_symlink_returns_none_on_other_witness :
    stOther.fs (dirname "/d/fifo") = Entry.dir ∧
    stOther.fs "/d/fifo" = Entry.other ∧
    symlink baseEnv "/d/fifo" "/t" false false stOther = (none, stOther) :=
  ⟨rfl, rfl,
    C10_symlink_returns_none_on_other baseEnv "/d/fifo" "/t" false false stOther rfl rfl⟩

theorem contentExisting_sums_equal (env : Env) (name source : String)
    (template : Option String) (senv : String) (ret : Ret) (st : St)
    (hs : HashInfo) (nc : List Nat)
    (hfs : st.fs name = Entry.file nc)
    (hh : env.hashFile source senv = some hs)
    (hf : env.hashFn hs.hash_type nc = hs.hsum) :
    contentExisting env name source template senv ret st = (Step.cont ret, st) := by
  unfold contentExisting
  simp [contentOf, hfs, hh, hf]

theorem tval_none_eq : tval none = none := rfl

theorem tval_some_eq (s : String) (h : s ≠ "") : tval (some s) = some s := by
  simp [tval, h]

theorem permPhaseA_nones (env : Env) (name : String) (ret : Ret) (st : St) :
    permPhaseA env name none none none ret st = (ret, st) := by
  unfold permPhaseA
  simp [tval]

theorem permPhaseA_state_pending (env : Env) (name : String)
    (user group : Option String) (ret : Ret) (st : St)
    (ht : env.test = false)
    (hp : (∃ u, tval user = some u ∧ u ≠ st.puser name) ∨
          (∃ g, tval group = some g ∧ g ≠ st.pgroup name)) :
    (permPhaseA env name user group none ret st).2 = chownStep env name user group st := by
  unfold permPhaseA
  rcases hp with ⟨u, hu, hne⟩ | ⟨g, hg, hne⟩
  · simp [hu, hne, ht, tval_none_eq]
  · simp [hg, hne, ht, tval_none_eq]

theorem finishRet_changes (k : String) (t : Bool) (n : String) (r : Ret) :
    (finishRet k t n r).changes = r.changes := by
  simp only [finishRet]
  split_ifs <;> rfl

theorem permPhaseA_state_dry (env : Env) (name : String)
    (user group mode : Option String) (ret : Ret) (st : St) (h : env.test = true) :
    (permPhaseA env name user group mode ret st).2 = st := by
  unfold permPhaseA
  simp only [h]
  cases htm : tval mode with
  | none => simp
  | some m =>
    repeat' split
    all_goals simp_all

theorem permPhaseB_state_dry (env : Env) (name : String)
    (user group mode : Option String) (ret : Ret) (st : St) (h : env.test = true) :
    (permPhaseB env name user group mode ret st).2 = st := by
  unfold permPhaseB
  simp only [h]
  cases htm : tval mode with
  | none => simp
  | some m =>
    repeat' split
    all_goals simp_all

theorem templateExisting_state (env : Env) (t sfn : String) (ret : Ret) (st : St) :
    (templateExisting env t sfn ret st).2 = st ∨
    ∃ e, (templateExisting env t sfn ret st).1 = Sum.inl (Step.crash e) := by
  unfold templateExisting
  repeat' split
  all_goals first
    | exact Or.inl rfl
    | exact Or.inr ⟨_, rfl⟩

theorem templateNew_state (env : Env) (t sfn : String) (ret : Ret) (st : St) :
    (templateNew env t sfn ret st).2 = st ∨
    ∃ e, (templateNew env t sfn ret st).1 = Sum.inl (Step.crash e) := by
  unfold templateNew
  repeat' split
  all_goals first
    | exact Or.inl rfl
    | exact Or.inr ⟨_, rfl⟩

theorem diffAndCopy_state_dry (env : Env) (name sfn : String) (ret : Ret) (st : St)
    (h : env.test = true) :
    (diffAndCopy env name sfn ret st).2 = st ∨
    ∃ e, (diffAndCopy env name sfn ret st).1 = Step.crash e := by
  unfold diffAndCopy
  simp only [h]
  repeat' split
  all_goals first
    | exact Or.inl rfl
    | exact Or.inr ⟨_, rfl⟩
    | simp_all

theorem newFileCopy_state_dry (env : Env) (name sfn : String) (mk : Bool)
    (ret : Ret) (st : St) (h : env.test = true) :
    (newFileCopy env name sfn mk ret st).2 = st := by
  unfold newFileCopy
  simp [h]

theorem contentExisting_state_dry (env : Env) (name source : String)
    (template : Option String) (senv : String) (ret : Ret) (st : St)
    (h : env.test = true) :
    (contentExisting env name source template senv ret st).2 = st ∨
    ∃ e, (contentExisting env name source template senv ret st).1 = Step.crash e := by
  unfold contentExisting
  cases hh : env.hashFile source senv with
  | none => exact Or.inl rfl
  | some ss =>
    dsimp only
    cases hnc : contentOf st.fs name with
    | none => exact Or.inr ⟨_, rfl⟩
    | some nc =>
      dsimp only
      by_cases hsum : ss.hsum = env.hashFn ss.hash_type nc
      · rw [if_pos hsum]
        exact Or.inl rfl
      · rw [if_neg hsum]
        cases hc : env.cacheFile source senv with
        | none => exact Or.inl rfl
        | some sfn0 =>
          dsimp only
          cases htt : tval template with
          | none => exact diffAndCopy_state_dry env name sfn0 ret st h
          | some t =>
            dsimp only
            rcases hte : templateExisting env t sfn0 ret st with ⟨s0, st0⟩
            rcases templateExisting_state env t sfn0 ret st with hst | ⟨e, hcr⟩
            · rw [hte] at hst
              cases s0 with
              | inl s => exact Or.inl hst
              | inr sfn =>
                have hst2 : st0 = st := hst
                subst hst2
                exact diffAndCopy_state_dry env name sfn ret st0 h
            · rw [hte] at hcr
              cases s0 with
              | inl s =>
                simp only [Sum.inl.injEq] at hcr
                exact Or.inr ⟨e, by simp [hcr]⟩
              | inr sfn => simp at hcr

theorem contentNew_state_dry (env : Env) (name source : String)
    (template : Option String) (mk : Bool) (senv : String) (ret : Ret) (st : St)
    (h : env.test = true) :
    (contentNew env name source template mk senv ret st).2 = st ∨
    ∃ e, (contentNew env name source template mk senv ret st).1 = Step.crash e := by
  unfold contentNew
  cases hc : env.cacheFile source senv with
  | none => exact Or.inl rfl
  | some sfn0 =>
    dsimp only
    cases htt : tval template with
    | none => exact Or.inl (newFileCopy_state_dry env name sfn0 mk ret st h)
    | some t =>
      dsimp only
      rcases hte : templateNew env t sfn0 ret st with ⟨s0, st0⟩
      rcases templateNew_state env t sfn0 ret st with hst | ⟨e, hcr⟩
      · rw [hte] at hst
        cases s0 with
        | inl s => exact Or.inl hst
        | inr sfn =>
          have hst2 : st0 = st := hst
          subst hst2
          exact Or.inl (newFileCopy_state_dry env name sfn mk ret st0 h)
      · rw [hte] at hcr
        cases s0 with
        | inl s =>
          simp only [Sum.inl.injEq] at hcr
          exact Or.inr ⟨e, by simp [hcr]⟩
        | inr sfn => simp at hcr

/-- C1 (amended part): a `managed` call that completes with a result (does
not crash) under the dry-run flag performs no mutation at all — the final
state, including the mutation trace, equals the initial state. The other
reconcilers do not enjoy this property (see the counterexample). -/
theorem C1_managed_dry_run_no_mutation (env : Env) (name source : String)
    (user group mode template : Option String) (mk : Bool) (senv : String)
    (st : St) (r : Ret)
    (h : env.test = true)
    (hok : (managed env name source user group mode template mk senv st).1 = Except.ok r) :
    (managed env name source user group mode template mk senv st).2 = st := by
  unfold managed at hok ⊢
  by_cases hfl : isfile st.fs name = true
  · simp only [hfl] at hok ⊢
    rcases hce : contentExisting env name source template senv
        { name := name, changes := [], result := true, comment := "" } st with ⟨s, st1⟩
    rw [hce] at hok
    have hst1 : st1 = st ∨ ∃ e, s = Step.crash e := by
      rcases contentExisting_state_dry env name source template senv
          { name := name, changes := [], result := true, comment := "" } st h with hx | ⟨e, hx⟩
      · rw [hce] at hx; exact Or.inl hx
      · rw [hce] at hx; exact Or.inr ⟨e, hx⟩
    cases s with
    | done r1 =>
      rcases hst1 with hst1 | ⟨e, hx⟩
      · exact hst1
      · simp at hx
    | crash e => simp at hok
    | cont r1 =>
      rcases hst1 with hst1 | ⟨e, hx⟩
      · show (permPhaseA env name user group mode r1 st1).2 = st
        rw [permPhaseA_state_dry env name user group mode r1 st1 h]
        exact hst1
      · simp at hx
  · simp only [Bool.not_eq_true] at hfl
    simp only [hfl] at hok ⊢
    rcases hce : contentNew env name source template mk senv
        { name := name, changes := [], result := true, comment := "" } st with ⟨s, st1⟩
    rw [hce] at hok
    have hst1 : st1 = st ∨ ∃ e, s = Step.crash e := by
      rcases contentNew_state_dry env name source template mk senv
          { name := name, changes := [], result := true, comment := "" } st h with hx | ⟨e, hx⟩
      · rw [hce] at hx; exact Or.inl hx
      · rw [hce] at hx; exact Or.inr ⟨e, hx⟩
    cases s with
    | done r1 =>
      rcases hst1 with hst1 | ⟨e, hx⟩
      · exact hst1
      · simp at hx
    | crash e => simp at hok
    | cont r1 =>
      rcases hst1 with hst1 | ⟨e, hx⟩
      · show (permPhaseB env name user group mode r1 st1).2 = st
        rw [permPhaseB_state_dry env name user group mode r1 st1 h]
        exact hst1
      · simp at hx

/-- Witness for C1 (amended) at a concrete input: an existing file with
matching digests under dry run. -/
theorem C1_managed_dry_run_no_mutation_witness :
    envDryEq.test = true ∧
    (managed envDryEq "/f" "src" none none none none false "base" stA).2 = stA :=
  ⟨rfl,
    C1_managed_dry_run_no_mutation envDryEq "/f" "src" none none none none false "base" stA
      { name := "/f", changes := [], result := true, comment := "File /f not updated" }
      rfl rfl⟩

/-- Nonemptiness of any string ending in a space, used to settle the
empty-comment check when a failure fragment is present. -/
theorem append_space_ne_empty (s : String) : s ++ " " ≠ "" := by
  intro hcontr
  have hlen : (s ++ " ").length = 0 := by rw [hcontr]; rfl
  rw [String.length_append] at hlen
  have h1 : (" " : String).length = 1 := rfl
  omega

/-- C2 (amended): in a `managed` dry run on an existing file with matching
digests and a pending mode change, no provider mutation call is made and the
state is untouched, the pending change is not recorded in the change set, but
the verification re-read still runs against the unmodified state, so the
result is marked false (and the final comment is the not-updated one). -/
theorem C2_dry_run_mode_verification (env : Env) (name source senv m : String)
    (st : St) (hs : HashInfo) (nc : List Nat)
    (hfs : st.fs name = Entry.file nc)
    (hh : env.hashFile source senv = some hs)
    (hf : env.hashFn hs.hash_type nc = hs.hsum)
    (ht : env.test = true)
    (hm0 : m ≠ "")
    (hmne : m ≠ st.pmode name) :
    (managed env name source none none (some m) none false senv st).1
      = Except.ok { name := name, changes := [], result := false,
                    comment := "File " ++ name ++ " not updated" } ∧
    (managed env name source none none (some m) none false senv st).2 = st := by
  have hfile : isfile st.fs name = true := by simp [isfile, hfs]
  unfold managed
  simp only [hfile]
  rw [contentExisting_sums_equal env name source none senv _ st hs nc hfs hh hf]
  unfold permPhaseA finishRet
  simp [hfile, tval, hm0, hmne, ht]

/-- Witness for C2 (amended) at a concrete input. -/
theorem C2_dry_run_mode_verification_witness :
    stA.fs "/f" = Entry.file [49] ∧ envDryEq.test = true ∧ "644" ≠ stA.pmode "/f" ∧
    ((managed envDryEq "/f" "src" none none (some "644") none false "base" stA).1
        = Except.ok { name := "/f", changes := [], result := false,
                      comment := "File " ++ "/f" ++ " not updated" } ∧
     (managed envDryEq "/f" "src" none none (some "644") none false "base" stA).2 = stA) :=
  ⟨rfl, rfl, by decide,
    C2_dry_run_mode_verification envDryEq "/f" "src" "base" "644" stA
      { hash_type := "md5", hsum := "abc" } [49] rfl rfl rfl rfl (by decide) (by decide)⟩

/-- C3 (amended): for the managed-new-file example (`/etc/app.conf` absent,
source found and cached, dry-run off, mode reconciliation succeeding with
desired mode 644), the change set is recorded under the key `diff` (value
`New file`) plus `mode`, and the comment is `File /etc/app.conf updated`. -/
theorem C3_new_file_changeset (env : Env) (st : St) (sfn : String) (c : List Nat)
    (h1 : st.fs "/etc/app.conf" = Entry.missing)
    (h2 : env.cacheFile "pkg://app.conf" "base" = some sfn)
    (h3 : st.fs sfn = Entry.file c)
    (h4 : st.fs "/etc" = Entry.dir)
    (h5 : env.test = false)
    (h6 : env.setModeOk = true)
    (h7 : "644" ≠ st.pmode sfn) :
    (managed env "/etc/app.conf" "pkg://app.conf" none none (some "644") none false
        "base" st).1
      = Except.ok
          { name := "/etc/app.conf",
            changes := [("diff", "New file"), ("mode", "644")],
            result := true, comment := "File /etc/app.conf updated" } := by
  have hd : dirname "/etc/app.conf" = "/etc" := rfl
  have hfile : isfile st.fs "/etc/app.conf" = false := by simp [isfile, h1]
  have hdir : isdir st.fs (dirname "/etc/app.conf") = true := by
    rw [hd]; simp [isdir, h4]
  have hco : contentOf st.fs sfn = some c := by simp [contentOf, h3]
  unfold managed contentNew newFileCopy copyStep permPhaseB finishRet
  simp [hfile, hdir, hco, fsUpdate, setModeStep, dinsert, tval, h2, h5, h6, h7]

/-- Witness for C3 (amended) at the concrete example input. -/
theorem C3_new_file_changeset_witness :
    stA.fs "/etc/app.conf" = Entry.missing ∧
    stA.fs "/cache/src" = Entry.file [104] ∧ stA.fs "/etc" = Entry.dir ∧
    "644" ≠ stA.pmode "/cache/src" ∧
    (managed baseEnv "/etc/app.conf" "pkg://app.conf" none none (some "644") none false
        "base" stA).1
      = Except.ok
          { name := "/etc/app.conf",
            changes := [("diff", "New file"), ("mode", "644")],
            result := true, comment := "File /etc/app.conf updated" } :=
  ⟨rfl, rfl, rfl, by decide,
    C3_new_file_changeset baseEnv stA "/cache/src" [104] rfl rfl rfl rfl rfl rfl (by decide)⟩

/-- C5 (amended): on an existing file with matching digests, when the mode
application fails and then the group application also fails in the same
`managed` call, the two failure fragments concatenate: the final comment is
the mode fragment followed by the group fragment, with result false. (The
user-failure comment, by contrast, overwrites — see the counterexample.) -/
theorem C5_mode_then_group_concat (env : Env) (name source senv g m : String)
    (st : St) (hs : HashInfo) (nc : List Nat)
    (hfs : st.fs name = Entry.file nc)
    (hh : env.hashFile source senv = some hs)
    (hf : env.hashFn hs.hash_type nc = hs.hsum)
    (ht : env.test = false)
    (hg0 : g ≠ "") (hgne : g ≠ st.pgroup name) (hgok : env.chownGroupOk = false)
    (hm0 : m ≠ "") (hmne : m ≠ st.pmode name) (hmok : env.setModeOk = false) :
    (managed env name source none (some g) (some m) none false senv st).1
      = Except.ok
          { name := name, changes := [], result := false,
            comment := "Mode not changed Failed to change group to " ++ g ++ " " } := by
  have hfile : isfile st.fs name = true := by simp [isfile, hfs]
  have hne := append_space_ne_empty ("Mode not changed Failed to change group to " ++ g)
  unfold managed
  simp only [hfile]
  rw [contentExisting_sums_equal env name source none senv _ st hs nc hfs hh hf]
  unfold permPhaseA finishRet chownStep setModeStep
  simp [hfile, tval, ht, hg0, hgne, hgok, hm0, hmne, hmok, hne]

/-- Witness for C5 (amended) at a concrete input. -/
theorem C5_mode_then_group_concat_witness :
    "wheel" ≠ stA.pgroup "/f" ∧ "644" ≠ stA.pmode "/f" ∧
    envRejectsGroup.chownGroupOk = false ∧ envRejectsGroup.setModeOk = false ∧
    (managed envRejectsGroup "/f" "src" none (some "wheel") (some "644") none false
        "base" stA).1
      = Except.ok
          { name := "/f", changes := [], result := false,
            comment := "Mode not changed Failed to change group to " ++ "wheel" ++ " " } :=
  ⟨by decide, by decide, rfl, rfl,
    C5_mode_then_group_concat envRejectsGroup "/f" "src" "base" "wheel" "644" stA
      { hash_type := "md5", hsum := "abc" } [49] rfl rfl rfl rfl
      (by decide) (by decide) rfl (by decide) (by decide) rfl⟩

/-- C8: on an existing file with divergent digests (no template), the diff
change is the opaque binary-replace marker when either the cached source
artifact or the destination has a NUL byte in its first 2048 bytes, and
otherwise the unified diff of the source lines against the destination
lines; the call succeeds with the updated comment. -/
theorem C8_binary_or_diff (env : Env) (name source senv sfn : String)
    (st : St) (hs : HashInfo) (nc sc : List Nat)
    (hfs : st.fs name = Entry.file nc)
    (hh : env.hashFile source senv = some hs)
    (hne : hs.hsum ≠ env.hashFn hs.hash_type nc)
    (hc : env.cacheFile source senv = some sfn)
    (hsc : st.fs sfn = Entry.file sc)
    (ht : env.test = false) :
    (managed env name source none none none none false senv st).1
      = Except.ok
          { name := name,
            changes := [("diff",
              if isBinContent sc || isBinContent nc then "Replace binary file"
              else env.unifiedDiff (splitLines sc) (splitLines nc))],
            result := true,
            comment := "File " ++ name ++ " updated" } := by
  have hfile : isfile st.fs name = true := by simp [isfile, hfs]
  have hnc : contentOf st.fs name = some nc := by simp [contentOf, hfs]
  have hco : contentOf st.fs sfn = some sc := by simp [contentOf, hsc]
  unfold managed contentExisting diffAndCopy copyStep finishRet
  by_cases hb : (isBinContent sc || isBinContent nc) = true
  · simp [hfile, hnc, hco, hh, hc, hne, ht, tval, permPhaseA_nones, dinsert, hb]
  · rw [Bool.not_eq_true] at hb
    simp [hfile, hnc, hco, hh, hc, hne, ht, tval, permPhaseA_nones, dinsert, hb]

/-- Witness for C8 at a concrete input (binary source artifact). -/
theorem C8_binary_or_diff_witness :
    stA.fs "/f" = Entry.file [49] ∧ stA.fs "/cache/src" = Entry.file [104] ∧
    baseEnv.hashFile "src" "base" = some { hash_type := "md5", hsum := "abc" } ∧
    { hash_type := "md5", hsum := "abc" : HashInfo }.hsum ≠ baseEnv.hashFn "md5" [49] ∧
    (managed baseEnv "/f" "src" none none none none false "base" stA).1
      = Except.ok
          { name := "/f",
            changes := [("diff",
              if isBinContent [104] || isBinContent [49] then "Replace binary file"
              else baseEnv.unifiedDiff (splitLines [104]) (splitLines [49]))],
            result := true,
            comment := "File " ++ "/f" ++ " updated" } :=
  ⟨rfl, rfl, rfl, by decide,
    C8_binary_or_diff baseEnv "/f" "src" "base" "/cache/src" stA
      { hash_type := "md5", hsum := "abc" } [49] [104] rfl rfl (by decide) rfl rfl rfl⟩

/-- C9: in the permission phase shared by `managed` (existing file, digests
matching) and `directory` (directory present), with dry-run off and at least
one of owner or group pending, the combined provider call `file.chown` is
made exactly once, with both the desired user and the desired group as
passed to the reconciler — even when only one of the two differs: the trace
grows by exactly the single chown event. -/
theorem C9_chown_joint_application :
    (∀ (env : Env) (name source senv : String) (user group : Option String)
        (st : St) (hs : HashInfo) (nc : List Nat),
      st.fs name = Entry.file nc →
      env.hashFile source senv = some hs →
      env.hashFn hs.hash_type nc = hs.hsum →
      env.test = false →
      ((∃ u, tval user = some u ∧ u ≠ st.puser name) ∨
       (∃ g, tval group = some g ∧ g ≠ st.pgroup name)) →
      (managed env name source user group none none false senv st).2.trace
        = st.trace ++ [Event.chown name user group]) ∧
    (∀ (env : Env) (name : String) (user group : Option String) (st : St),
      st.fs name = Entry.dir →
      env.test = false →
      ((∃ u, tval user = some u ∧ u ≠ st.puser name) ∨
       (∃ g, tval group = some g ∧ g ≠ st.pgroup name)) →
      (directory env name user group none false st).2.trace
        = st.trace ++ [Event.chown name user group]) := by
  constructor
  · intro env name source senv user group st hs nc hfs hh hf ht hp
    have hfile : isfile st.fs name = true := by simp [isfile, hfs]
    unfold managed
    simp only [hfile]
    rw [contentExisting_sums_equal env name source none senv _ st hs nc hfs hh hf]
    rcases hpp : permPhaseA env name user group none
        { name := name, changes := [], result := true, comment := "" } st with ⟨r2, st2⟩
    have h2 : st2 = chownStep env name user group st := by
      have hx := permPhaseA_state_pending env name user group
          { name := name, changes := [], result := true, comment := "" } st ht hp
      rw [hpp] at hx; exact hx
    simp [hfile, hpp, h2, chownStep_trace]
  · intro env name user group st hfs ht hp
    have hfile : isfile st.fs name = false := by simp [isfile, hfs]
    have hdir : isdir st.fs name = true := by simp [isdir, hfs]
    unfold directory
    rcases hpp : permPhaseA env name user group none
        { name := name, changes := [], result := true, comment := "" } st with ⟨r2, st2⟩
    have h2 : st2 = chownStep env name user group st := by
      have hx := permPhaseA_state_pending env name user group
          { name := name, changes := [], result := true, comment := "" } st ht hp
      rw [hpp] at hx; exact hx
    simp [hfile, hdir, hpp, h2, chownStep_trace]

/-- Witness for C9 at concrete inputs: a group-only pending change still
invokes the combined owner+group apply, in both `managed` and `directory`. -/
theorem C9_chown_joint_application_witness :
    ((managed envEq "/f" "src" none (some "wheel") none none false "base" stA).2.trace
       = stA.trace ++ [Event.chown "/f" none (some "wheel")]) ∧
    ((directory envEq "/d" none (some "wheel") none false stA).2.trace
       = stA.trace ++ [Event.chown "/d" none (some "wheel")]) :=
  ⟨C9_chown_joint_application.1 envEq "/f" "src" "base" none (some "wheel") stA
      { hash_type := "md5", hsum := "abc" } [49] rfl rfl rfl rfl
      (Or.inr ⟨"wheel", rfl, by decide⟩),
   C9_chown_joint_application.2 envEq "/d" none (some "wheel") stA rfl rfl
      (Or.inr ⟨"wheel", rfl, by decide⟩)⟩

end SaltFile
